import Mathlib

/-!
Verification of the xrpl-guardrails preflight engine.

Shallow embedding of:
- `scripts/preflight.ts` (check runner, audit result parser, policy evaluator),
- `apps/web/app/api/preflight/route.ts` (HTTP enforcement boundary),
- `packages/sdk/index.js` (mode normalization, enforcement gate / failure reason).

Effectful boundaries (filesystem, subprocess, transport, hashing) are abstracted
into explicit inputs; `JSON.parse` is modelled by the executable `jparse` below
(strict JSON values; numeric literals are modelled as integers, which covers
every numeric field the audit pipeline inspects).
-/

namespace Guardrails

/-- Check status values, `CHECK_STATUS` in scripts/preflight.ts. -/
inductive CheckStatus where
  | pass
  | warn
  | fail
  deriving DecidableEq, Repr, Inhabited

/-- Overall posture colors produced by the policy evaluator. -/
inductive Overall where
  | green
  | yellow
  | red
  deriving DecidableEq, Repr, Inhabited

/-- Enforcement mode of the SDK gate. -/
inductive Mode where
  | enforced
  | bypass
  deriving DecidableEq, Repr, Inhabited

/-- A check record: `{name, status, details?}`. `details = none` models an
absent `details` property. -/
structure Check where
  name : String
  status : CheckStatus
  details : Option String
  deriving DecidableEq, Repr, Inhabited

/-- JSON values as produced by `JSON.parse`, restricted to integer numerals. -/
inductive Json where
  | null : Json
  | bool : Bool → Json
  | num : Int → Json
  | str : String → Json
  | arr : List Json → Json
  | obj : List (String × Json) → Json
  deriving Repr, Inhabited

/-- Whitespace recognized while parsing JSON. -/
def isWsChar (c : Char) : Bool :=
  c = ' ' ∨ c = '\t' ∨ c = '\n' ∨ c = '\r'

/-- Drop leading JSON whitespace. -/
def skipWs : List Char → List Char
  | [] => []
  | c :: rest => if isWsChar c then skipWs rest else c :: rest

/-- Drop trailing JSON/JS whitespace. -/
def dropTrailingWs (cs : List Char) : List Char :=
  (skipWs cs.reverse).reverse

/-- Model of JavaScript `String.prototype.trim` (whitespace limited to the
four ASCII whitespace characters that occur in tool output). -/
def jsTrim (s : String) : String :=
  String.mk (dropTrailingWs (skipWs s.data))

/-- Model of JavaScript `String.prototype.toLowerCase` (ASCII range). -/
def jsToLower (s : String) : String :=
  String.mk (s.data.map Char.toLower)

/-- Boolean prefix test on character lists. -/
def isPrefixChars : List Char → List Char → Bool
  | [], _ => true
  | _ :: _, [] => false
  | a :: as, b :: bs => decide (a = b) && isPrefixChars as bs

/-- Model of JavaScript `String.prototype.endsWith`. -/
def jsEndsWith (s suffix : String) : Bool :=
  isPrefixChars suffix.data.reverse s.data.reverse

/-- Insert into a list sorted by the JS default string comparison. -/
def sortedInsertStr (x : String) : List String → List String
  | [] => [x]
  | y :: rest => if x ≤ y then x :: y :: rest else y :: sortedInsertStr x rest

/-- Model of JavaScript `Array.prototype.sort()` on strings. -/
def sortStrings : List String → List String
  | [] => []
  | x :: rest => sortedInsertStr x (sortStrings rest)

/-- Model of JavaScript `Array.prototype.join(sep)`. -/
def joinSep (sep : String) : List String → String
  | [] => ""
  | [x] => x
  | x :: rest => x ++ sep ++ joinSep sep rest

/-- Value of a hexadecimal digit. -/
def hexVal (c : Char) : Option Nat :=
  if '0' ≤ c ∧ c ≤ '9' then some (c.toNat - '0'.toNat)
  else if 'a' ≤ c ∧ c ≤ 'f' then some (c.toNat - 'a'.toNat + 10)
  else if 'A' ≤ c ∧ c ≤ 'F' then some (c.toNat - 'A'.toNat + 10)
  else none

/-- Parse the body of a JSON string literal (after the opening quote). -/
def parseStringBody : List Char → List Char → Except String (String × List Char)
  | [], _ => Except.error "Unterminated string in JSON"
  | c :: rest, acc =>
    if c = '"' then Except.ok (String.mk acc.reverse, rest)
    else if c = '\\' then
      match rest with
      | [] => Except.error "Unterminated escape in JSON"
      | e :: rest2 =>
        if e = '"' then parseStringBody rest2 ('"' :: acc)
        else if e = '\\' then parseStringBody rest2 ('\\' :: acc)
        else if e = '/' then parseStringBody rest2 ('/' :: acc)
        else if e = 'b' then parseStringBody rest2 (Char.ofNat 8 :: acc)
        else if e = 'f' then parseStringBody rest2 (Char.ofNat 12 :: acc)
        else if e = 'n' then parseStringBody rest2 ('\n' :: acc)
        else if e = 'r' then parseStringBody rest2 ('\r' :: acc)
        else if e = 't' then parseStringBody rest2 ('\t' :: acc)
        else if e = 'u' then
          match rest2 with
          | h1 :: h2 :: h3 :: h4 :: rest3 =>
            match hexVal h1, hexVal h2, hexVal h3, hexVal h4 with
            | some a, some b, some c2, some d =>
              parseStringBody rest3 (Char.ofNat (((a * 16 + b) * 16 + c2) * 16 + d) :: acc)
            | _, _, _, _ => Except.error "Bad unicode escape in JSON"
          | _ => Except.error "Bad unicode escape in JSON"
        else Except.error "Bad escape in JSON"
    else parseStringBody rest (c :: acc)

/-- Take a maximal run of decimal digits. -/
def takeDigits : List Char → List Char × List Char
  | [] => ([], [])
  | c :: rest =>
    if c.isDigit then
      let (ds, r) := takeDigits rest
      (c :: ds, r)
    else ([], c :: rest)

/-- Parse a JSON integer numeral (sign and digits, leading zeros rejected). -/
def parseNumberJ (cs : List Char) : Except String (Json × List Char) :=
  let (neg, cs1) := match cs with
    | '-' :: r => (true, r)
    | _ => (false, cs)
  match takeDigits cs1 with
  | ([], _) => Except.error "Invalid number in JSON"
  | (ds, rest) =>
    if ds.length > 1 ∧ ds.head? = some '0' then Except.error "Invalid number in JSON"
    else
      let n : Nat := ds.foldl (fun a c => a * 10 + (c.toNat - '0'.toNat)) 0
      Except.ok (Json.num (if neg then -(n : Int) else (n : Int)), rest)

/-- Match a literal keyword suffix. -/
def stripLit : List Char → List Char → Option (List Char)
  | [], cs => some cs
  | k :: ks, c :: cs => if c = k then stripLit ks cs else none
  | _ :: _, [] => none

/-- Insert a key into an object under construction; a duplicate key keeps its
first position and takes the later value, as `JSON.parse` does. -/
def objInsert : List (String × Json) → String → Json → List (String × Json)
  | [], k, v => [(k, v)]
  | (k0, v0) :: rest, k, v =>
    if k0 = k then (k0, v) :: rest else (k0, v0) :: objInsert rest k v

mutual

/-- Parse one JSON value; `fuel` bounds recursion depth. -/
def parseValue : Nat → List Char → Except String (Json × List Char)
  | 0, _ => Except.error "JSON too deep"
  | fuel + 1, cs =>
    match skipWs cs with
    | [] => Except.error "Unexpected end of JSON input"
    | c :: rest =>
      if c = '\x7b' then
        match skipWs rest with
        | '\x7d' :: rest2 => Except.ok (Json.obj [], rest2)
        | rest2 => parseMembers fuel rest2 []
      else if c = '[' then
        match skipWs rest with
        | ']' :: rest2 => Except.ok (Json.arr [], rest2)
        | rest2 => parseElements fuel rest2 []
      else if c = '"' then
        match parseStringBody rest [] with
        | Except.ok (s, rest2) => Except.ok (Json.str s, rest2)
        | Except.error e => Except.error e
      else if c = 't' then
        match stripLit ['r', 'u', 'e'] rest with
        | some rest2 => Except.ok (Json.bool true, rest2)
        | none => Except.error "Unexpected token in JSON"
      else if c = 'f' then
        match stripLit ['a', 'l', 's', 'e'] rest with
        | some rest2 => Except.ok (Json.bool false, rest2)
        | none => Except.error "Unexpected token in JSON"
      else if c = 'n' then
        match stripLit ['u', 'l', 'l'] rest with
        | some rest2 => Except.ok (Json.null, rest2)
        | none => Except.error "Unexpected token in JSON"
      else if c = '-' ∨ c.isDigit then parseNumberJ (c :: rest)
      else Except.error "Unexpected token in JSON"

/-- Parse the members of a JSON object after the opening brace. -/
def parseMembers : Nat → List Char → List (String × Json) → Except String (Json × List Char)
  | 0, _, _ => Except.error "JSON too deep"
  | fuel + 1, cs, acc =>
    match skipWs cs with
    | '"' :: rest =>
      match parseStringBody rest [] with
      | Except.error e => Except.error e
      | Except.ok (key, rest2) =>
        match skipWs rest2 with
        | ':' :: rest3 =>
          match parseValue fuel rest3 with
          | Except.error e => Except.error e
          | Except.ok (v, rest4) =>
            match skipWs rest4 with
            | ',' :: rest5 => parseMembers fuel rest5 (objInsert acc key v)
            | '\x7d' :: rest5 => Except.ok (Json.obj (objInsert acc key v), rest5)
            | _ => Except.error "Expected comma or end of object in JSON"
        | _ => Except.error "Expected colon in JSON object"
    | _ => Except.error "Expected string key in JSON object"

/-- Parse the elements of a JSON array after the opening bracket. -/
def parseElements : Nat → List Char → List Json → Except String (Json × List Char)
  | 0, _, _ => Except.error "JSON too deep"
  | fuel + 1, cs, acc =>
    match parseValue fuel cs with
    | Except.error e => Except.error e
    | Except.ok (v, rest) =>
      match skipWs rest with
      | ',' :: rest2 => parseElements fuel rest2 (acc ++ [v])
      | ']' :: rest2 => Except.ok (Json.arr (acc ++ [v]), rest2)
      | _ => Except.error "Expected comma or end of array in JSON"

end

/-- Model of `JSON.parse`: parse a complete JSON document, rejecting trailing
non-whitespace content. -/
def jparse (s : String) : Except String Json :=
  match parseValue (s.length * 2 + 16) s.data with
  | Except.error e => Except.error e
  | Except.ok (v, rest) =>
    match skipWs rest with
    | [] => Except.ok v
    | _ => Except.error "Unexpected trailing characters in JSON"

/-- JavaScript property access `j[k]`: `none` models `undefined`. -/
def jsField (j : Json) (k : String) : Option Json :=
  match j with
  | Json.obj fields => (fields.find? (fun p => decide (p.1 = k))).map (fun p => p.2)
  | _ => none

/-- The source's `isRecord`: a non-null, non-array object. -/
def isRecord (j : Json) : Bool :=
  match j with
  | Json.obj _ => true
  | _ => false

/-- Record test on a possibly-undefined value. -/
def isRecordO (j : Option Json) : Bool :=
  match j with
  | some (Json.obj _) => true
  | _ => false

/-- Collapse the JSON value `null` to `none`, reflecting that downstream code
distinguishes results only by `=== null`. -/
def jsOpt (j : Json) : Option Json :=
  match j with
  | Json.null => none
  | v => some v

/-- JavaScript string truthiness of a string-or-null value. -/
def optTruthy (s : Option String) : Bool :=
  match s with
  | some t => decide (t ≠ "")
  | none => false

/-- Severity counters, `createSeverityCounts` shape in scripts/preflight.ts.
Counts are integers because `metadata.vulnerabilities` fields are copied
verbatim when numeric. -/
structure SeverityCounts where
  critical : Int
  high : Int
  moderate : Int
  low : Int
  deriving DecidableEq, Repr, Inhabited

/-- Zero-valued severity counters (`createSeverityCounts`). -/
def createSeverityCounts : SeverityCounts :=
  { critical := 0, high := 0, moderate := 0, low := 0 }

/-- The recognized severity levels, `SEVERITIES` in scripts/preflight.ts. -/
def SEVERITIES : List String := ["critical", "high", "moderate", "low"]

/-- `normalizeSeverity`: lower-case a string value, anything else becomes "". -/
def normalizeSeverity (severity : Option Json) : String :=
  match severity with
  | some (Json.str s) => jsToLower s
  | _ => ""

/-- `nonEmptyString`: trimmed string if non-empty, else null. -/
def nonEmptyString (value : Option Json) : Option String :=
  match value with
  | some (Json.str s) =>
    let trimmed := jsTrim s
    if trimmed = "" then none else some trimmed
  | _ => none

/-- `addSeverityCount` with the default amount 1. -/
def addSeverityCount (counts : SeverityCounts) (severity : Option Json) : SeverityCounts :=
  let normalized := normalizeSeverity severity
  if normalized = "critical" then { counts with critical := counts.critical + 1 }
  else if normalized = "high" then { counts with high := counts.high + 1 }
  else if normalized = "moderate" then { counts with moderate := counts.moderate + 1 }
  else if normalized = "low" then { counts with low := counts.low + 1 }
  else counts

/-- Write one named severity counter. -/
def setSeverityCount (counts : SeverityCounts) (severity : String) (n : Int) : SeverityCounts :=
  if severity = "critical" then { counts with critical := n }
  else if severity = "high" then { counts with high := n }
  else if severity = "moderate" then { counts with moderate := n }
  else if severity = "low" then { counts with low := n }
  else counts

/-- Substring of `s` between code-unit indices, `s.slice start stop` in JS. -/
def sliceStr (s : String) (start stop : Nat) : String :=
  String.mk ((s.data.drop start).take (stop - start))

/-- Index of the first occurrence of a character. -/
def firstIdxOf : List Char → Char → Option Nat
  | [], _ => none
  | x :: rest, c =>
    if x = c then some 0 else (firstIdxOf rest c).map (fun n => n + 1)

/-- Index of the last occurrence of a character. -/
def lastIdxOf (cs : List Char) (c : Char) : Option Nat :=
  match firstIdxOf cs.reverse c with
  | some i => some (cs.length - 1 - i)
  | none => none

/-- The best-effort extraction between the first open brace and the last close
brace of scripts/preflight.ts lines 130-139 (`indexOf`/`lastIndexOf`/`slice`). -/
def braceSlice (trimmed : String) : Option String :=
  match firstIdxOf trimmed.data '\x7b', lastIdxOf trimmed.data '\x7d' with
  | some s, some e => if s < e then some (sliceStr trimmed s (e + 1)) else none
  | _, _ => none

/-- `parseJsonCandidate` (scripts/preflight.ts lines 117-146): strict parse of
the trimmed text, then the brace-substring fallback, reporting the original
parse failure when both fail. A top-level JSON `null` result is indistinguishable,
downstream, from no parse (`parsed === null`), hence `jsOpt`. -/
def parseJsonCandidate (text : Option String) : Option Json × Option String :=
  match text with
  | none => (none, some "No JSON text available")
  | some t =>
    let trimmed := jsTrim t
    if trimmed = "" then (none, some "No JSON output from npm audit")
    else
      match jparse trimmed with
      | Except.ok v => (jsOpt v, none)
      | Except.error e =>
        match braceSlice trimmed with
        | some sl =>
          match jparse sl with
          | Except.ok v => (jsOpt v, none)
          | Except.error _ => (none, some e)
        | none => (none, some e)

/-- The stdout/stderr recovery sequencing of `runNpmAuditPolicyCheck`
(scripts/preflight.ts lines 324-328): stderr is parsed only when the stdout
candidate yielded no JSON; results and errors are combined with `??`. -/
def auditParseOutcome (stdout stderr : String) : Option Json × Option String :=
  let stdoutResult := parseJsonCandidate (some stdout)
  let stderrResult :=
    match stdoutResult.1 with
    | none => parseJsonCandidate (some stderr)
    | some _ => (none, none)
  (stdoutResult.1 <|> stderrResult.1, stdoutResult.2 <|> stderrResult.2)

/-- Result of `extractAuditSummary`. -/
structure AuditSummary where
  counts : SeverityCounts
  vulnerablePackageNames : List String
  deriving DecidableEq, Repr

/-- Set insertion in JS `Set` insertion order. -/
def insertSet (set : List String) (x : String) : List String :=
  if set.contains x then set else set ++ [x]

/-- The `metadata.vulnerabilities` pass of `extractAuditSummary` (lines
153-169): copy each numeric per-severity count, remembering whether any
numeric count was found. -/
def metadataCounts (j : Json) : SeverityCounts × Bool :=
  match (jsField j "metadata").bind (fun m => jsField m "vulnerabilities") with
  | some (Json.obj vf) =>
    SEVERITIES.foldl
      (fun acc sev =>
        match jsField (Json.obj vf) sev with
        | some (Json.num n) => (setSeverityCount acc.1 sev n, true)
        | _ => acc)
      (createSeverityCounts, false)
  | _ => (createSeverityCounts, false)

/-- The `vulnerabilities` record pass of `extractAuditSummary` (lines
171-181). -/
def vulnerabilitiesPass (j : Json) (countsFromMetadata : Bool)
    (acc : SeverityCounts × List String) : SeverityCounts × List String :=
  match jsField j "vulnerabilities" with
  | some (Json.obj entries) =>
    entries.foldl
      (fun acc2 kv =>
        let names := if kv.1 ≠ "" then insertSet acc2.2 kv.1 else acc2.2
        let cs :=
          if countsFromMetadata = false ∧ isRecord kv.2 = true then
            addSeverityCount acc2.1 (jsField kv.2 "severity")
          else acc2.1
        (cs, names))
      acc
  | _ => acc

/-- The `advisories` record pass of `extractAuditSummary` (lines 183-197). -/
def advisoriesPass (j : Json) (countsFromMetadata : Bool)
    (acc : SeverityCounts × List String) : SeverityCounts × List String :=
  match jsField j "advisories" with
  | some (Json.obj entries) =>
    entries.foldl
      (fun acc2 kv =>
        match kv.2 with
        | Json.obj af =>
          let names :=
            match jsField (Json.obj af) "module_name" with
            | some (Json.str mn) => if mn ≠ "" then insertSet acc2.2 mn else acc2.2
            | _ => acc2.2
          let cs :=
            if countsFromMetadata then acc2.1
            else addSeverityCount acc2.1 (jsField (Json.obj af) "severity")
          (cs, names)
        | _ => acc2)
      acc
  | _ => acc

/-- `extractAuditSummary` (scripts/preflight.ts lines 148-203): severity counts
prefer the metadata block; vulnerable package names are collected from both
per-package shapes, sorted, and capped at five. -/
def extractAuditSummary (parsedAuditJson : Json) : AuditSummary :=
  let (counts0, countsFromMetadata) := metadataCounts parsedAuditJson
  let afterVulns := vulnerabilitiesPass parsedAuditJson countsFromMetadata (counts0, [])
  let afterAdvisories := advisoriesPass parsedAuditJson countsFromMetadata afterVulns
  { counts := afterAdvisories.1,
    vulnerablePackageNames :=
      (sortStrings afterAdvisories.2).take 5 }

/-- `extractAuditErrorMessage` (scripts/preflight.ts lines 205-245). -/
def extractAuditErrorMessage (j : Json) : Option String :=
  if isRecord j = false then none
  else
    let rootMessage := nonEmptyString (jsField j "message")
    let stringError := nonEmptyString (jsField j "error")
    match stringError with
    | some se => some se
    | none =>
      if isRecordO (jsField j "error") = false then rootMessage
      else
        let errObj := (jsField j "error").getD Json.null
        match nonEmptyString (jsField errObj "summary") with
        | some s => some s
        | none =>
          match nonEmptyString (jsField errObj "message") with
          | some m => some m
          | none =>
            match nonEmptyString (jsField errObj "detail") with
            | some d => some d
            | none =>
              match rootMessage with
              | some r => some r
              | none =>
                match nonEmptyString (jsField errObj "code") with
                | some c => some ("npm audit error code: " ++ c)
                | none => none

/-- `formatAuditDetails` (scripts/preflight.ts lines 247-256); the empty note
stands for the JS falsy `null`/`""`. Association is to the right so that the
"critical=" head is syntactically exposed. -/
def formatAuditDetails (counts : SeverityCounts) (vulnerablePackageNames : List String)
    (note : String) : String :=
  "critical=" ++
    (toString counts.critical ++
      (", high=" ++
        (toString counts.high ++
          (", moderate=" ++
            (toString counts.moderate ++
              (", low=" ++
                (toString counts.low ++
                  ("; packages=" ++
                    ((if vulnerablePackageNames.isEmpty then "none"
                      else joinSep ", " vulnerablePackageNames) ++
                      (if note = "" then "" else "; note=" ++ note))))))))))

/-- Subprocess observation captured by `runCommand` (scripts/preflight.ts
lines 258-309): exit code (null when unavailable), both streams, and a spawn
error message when the spawn itself failed. -/
structure AuditOutput where
  exitCode : Option Int
  stdout : String
  stderr : String
  spawnError : Option String
  deriving DecidableEq, Repr, Inhabited

/-- The status computation of `runNpmAuditPolicyCheck` (scripts/preflight.ts
lines 352-368): an explicit tool-reported error forces fail; else
critical/high mean fail, moderate/low mean warn, else pass; a pass result is
downgraded to fail on an unexplained non-zero exit code. -/
def auditPolicyStatus (counts : SeverityCounts) (exitCode : Option Int)
    (errMsg : Option String) : CheckStatus :=
  let base :=
    if optTruthy errMsg then CheckStatus.fail
    else if counts.critical > 0 ∨ counts.high > 0 then CheckStatus.fail
    else if counts.moderate > 0 ∨ counts.low > 0 then CheckStatus.warn
    else CheckStatus.pass
  if base = CheckStatus.pass ∧ exitCode ≠ none ∧ exitCode ≠ some 0 then CheckStatus.fail
  else base

/-- `runNpmAuditPolicyCheck` (scripts/preflight.ts lines 311-391), as a pure
function of the captured subprocess output. -/
def runNpmAuditPolicyCheck (out : AuditOutput) : Check :=
  if optTruthy out.spawnError then
    { name := "npm audit policy", status := CheckStatus.fail,
      details := some (formatAuditDetails createSeverityCounts [] (out.spawnError.getD "")) }
  else
    match (auditParseOutcome out.stdout out.stderr).1 with
    | none =>
      let parseError := (auditParseOutcome out.stdout out.stderr).2
      let noteParts :=
        (match parseError with
         | some e => if e = "" then [] else ["could not parse npm audit JSON (" ++ (e ++ ")")]
         | none => []) ++
        (match out.exitCode with
         | some c =>
           [if c = 1 then "npm audit returned non-zero because vulnerabilities were found (expected)"
            else "npm audit exited with code " ++ toString c]
         | none => [])
      { name := "npm audit policy", status := CheckStatus.fail,
        details := some (formatAuditDetails createSeverityCounts [] (joinSep "; " noteParts)) }
    | some j =>
      let summary := extractAuditSummary j
      let errMsg := extractAuditErrorMessage j
      let status := auditPolicyStatus summary.counts out.exitCode errMsg
      let noteParts :=
        (match errMsg with
         | some m => if m = "" then [] else [m]
         | none => []) ++
        (match out.exitCode with
         | some c =>
           if c ≠ 0 then
             [if c = 1 then "npm audit returned non-zero because vulnerabilities were found (expected)"
              else "npm audit exited with code " ++ toString c]
           else []
         | none => [])
      { name := "npm audit policy", status := status,
        details := some (formatAuditDetails summary.counts summary.vulnerablePackageNames
          (joinSep "; " noteParts)) }

/-! ## Check runner (`run` in scripts/preflight.ts lines 393-527) -/

/-- `isExactVersionString` (scripts/preflight.ts lines 36-38): the regex
`^(0|[1-9]\d*)\.(0|[1-9]\d*)\.(0|[1-9]\d*)(?:-[0-9A-Za-z.-]+)?(?:\+[0-9A-Za-z.-]+)?$`
as a deterministic scanner (the character classes make the regex
backtracking-free). -/
def versionNumComponent (cs : List Char) : Option (List Char) :=
  match takeDigits cs with
  | ([], _) => none
  | (ds, rest) =>
    if ds.length > 1 ∧ ds.head? = some '0' then none else some rest

/-- Characters of the pre-release / build-metadata class `[0-9A-Za-z.-]`. -/
def isSemverIdentChar (c : Char) : Bool :=
  c.isAlphanum ∨ c = '.' ∨ c = '-'

/-- Take a maximal run of semver identifier characters. -/
def takeSemverIdent : List Char → List Char × List Char
  | [] => ([], [])
  | c :: rest =>
    if isSemverIdentChar c then
      let (run, r) := takeSemverIdent rest
      (c :: run, r)
    else ([], c :: rest)

/-- Optional build-metadata suffix and end of input. -/
def semverBuildTail (cs : List Char) : Bool :=
  match cs with
  | [] => true
  | '+' :: r =>
    match takeSemverIdent r with
    | ([], _) => false
    | (_, r2) => decide (r2 = [])
  | _ => false

/-- Optional pre-release suffix, then the build tail. -/
def semverPreTail (cs : List Char) : Bool :=
  match cs with
  | '-' :: r =>
    (match takeSemverIdent r with
     | ([], _) => false
     | (_, r2) => semverBuildTail r2)
  | _ => semverBuildTail cs

/-- `isExactVersionString` itself. -/
def isExactVersionString (version : String) : Bool :=
  match versionNumComponent version.data with
  | some ('.' :: r1) =>
    (match versionNumComponent r1 with
     | some ('.' :: r2) =>
       (match versionNumComponent r2 with
        | some rest => semverPreTail rest
        | none => false)
     | _ => false)
  | _ => false

/-- A located lockfile entry for the target dependency. -/
structure LockEntry where
  location : String
  version : String
  deriving Repr

/-- `findXrplLockfileEntry` (scripts/preflight.ts lines 40-78): the nested
`packages` map is searched first (first matching entry wins), then the flat
`dependencies` map. -/
def findXrplLockfileEntry (lockfileJson : Option Json) : Option LockEntry :=
  match lockfileJson with
  | some (Json.obj fields) =>
    let fromPackages :=
      match jsField (Json.obj fields) "packages" with
      | some (Json.obj pkgs) =>
        pkgs.findSome? (fun entry =>
          let isXrplPath :=
            entry.1 = "node_modules/xrpl" ∨ jsEndsWith entry.1 "/node_modules/xrpl" = true
          if isXrplPath then
            match entry.2 with
            | Json.obj ef =>
              (match jsField (Json.obj ef) "version" with
               | some (Json.str ver) =>
                 some { location := "packages[\"" ++ entry.1 ++ "\"]", version := ver }
               | _ => none)
            | _ => none
          else none)
      | _ => none
    match fromPackages with
    | some e => some e
    | none =>
      match jsField (Json.obj fields) "dependencies" with
      | some (Json.obj deps) =>
        (match jsField (Json.obj deps) "xrpl" with
         | some (Json.obj x) =>
           (match jsField (Json.obj x) "version" with
            | some (Json.str ver) => some { location := "dependencies.xrpl", version := ver }
            | _ => none)
         | _ => none)
      | _ => none
  | _ => none

/-- `asCheck` (scripts/preflight.ts lines 89-95); a falsy (absent or empty)
details string yields a check without a `details` property. -/
def asCheck (name : String) (ok : Bool) (details : Option String) : Check :=
  { name := name,
    status := if ok then CheckStatus.pass else CheckStatus.fail,
    details :=
      match details with
      | some d => if d = "" then none else some d
      | none => none }

/-- Filesystem and subprocess observations consumed by one `run` invocation.
Read results are `Except` because `fs.readFile` may reject. -/
structure Env where
  hasRootLockfile : Bool
  hasWebDir : Bool
  hasWebLockfile : Bool
  rootLockfileRead : Except String String
  hasWebPackageJson : Bool
  webPackageJsonRead : Except String String
  audit : AuditOutput

/-- Outcome of the lockfile read/hash/parse block of `run` (scripts/preflight.ts
lines 416-438). -/
structure LockfileStage where
  check : Check
  lockfileSha256 : Option String
  rootLockfileJson : Option Json
  rootLockfileParseError : Option String

/-- The lockfile read/hash/parse block of `run` (lines 402-405 and 416-438);
`hash` abstracts `createHash("sha256")`. -/
def shaStage (env : Env) (hash : String → String) : LockfileStage :=
  if env.hasRootLockfile then
    match env.rootLockfileRead with
    | Except.ok lockfileText =>
      (match jparse lockfileText with
       | Except.ok j =>
         { check := asCheck "sha256 of root package-lock.json computed" true none,
           lockfileSha256 := some (hash lockfileText),
           rootLockfileJson := some j,
           rootLockfileParseError := none }
       | Except.error e =>
         { check := asCheck "sha256 of root package-lock.json computed" true none,
           lockfileSha256 := some (hash lockfileText),
           rootLockfileJson := none,
           rootLockfileParseError := some e })
    | Except.error e =>
      { check := asCheck "sha256 of root package-lock.json computed" false (some e),
        lockfileSha256 := none,
        rootLockfileJson := none,
        rootLockfileParseError := some e }
  else
    { check := asCheck "sha256 of root package-lock.json computed" false
        (some "root package-lock.json is missing"),
      lockfileSha256 := none,
      rootLockfileJson := none,
      rootLockfileParseError := none }

/-- The manifest pin block of `run` (scripts/preflight.ts lines 440-466):
returns `(xrplVersion, xrplDependencyCheckDetails)`. -/
def pinStage (env : Env) : Option String × Option String :=
  if env.hasWebPackageJson = false then
    (none, some "apps/web/package.json is missing")
  else
    match env.webPackageJsonRead with
    | Except.error e => (none, some e)
    | Except.ok webPackageJsonText =>
      match jparse webPackageJsonText with
      | Except.error e => (none, some e)
      | Except.ok webPackageJson =>
        if isRecord webPackageJson = false then
          (none, some "apps/web/package.json must contain a JSON object")
        else if isRecordO (jsField webPackageJson "dependencies") = false then
          (none, some "apps/web/package.json dependencies is missing")
        else
          match (jsField webPackageJson "dependencies").getD Json.null with
          | Json.obj depFields =>
            (match jsField (Json.obj depFields) "xrpl" with
             | some (Json.str v) =>
               if isExactVersionString v = false then
                 (none, some ("dependencies.xrpl must be an exact version (no ^ or ~); found \"" ++ (v ++ "\"")))
               else (some v, none)
             | _ => (none, some "dependencies.xrpl is missing"))
          | _ => (none, some "dependencies.xrpl is missing")

/-- The lockfile alignment block of `run` (scripts/preflight.ts lines
476-498): returns `(xrplLockfileMatches, xrplLockfileCheckDetails)`. -/
def alignStage (env : Env) (xrplVersion : Option String) (ls : LockfileStage) :
    Bool × Option String :=
  match xrplVersion with
  | none => (false, some "apps/web/package.json xrpl version check failed, cannot compare lockfile")
  | some v =>
    if env.hasRootLockfile = false then
      (false, some "root package-lock.json is missing")
    else
      match ls.rootLockfileParseError with
      | some e => (false, some ("could not parse root package-lock.json (" ++ (e ++ ")")))
      | none =>
        match findXrplLockfileEntry ls.rootLockfileJson with
        | none =>
          (false, some ("root package-lock.json does not contain an xrpl entry at version \"" ++ (v ++ "\"")))
        | some entry =>
          if entry.version ≠ v then
            (false, some (entry.location ++ (" is \"" ++ (entry.version ++ ("\", expected \"" ++ (v ++ "\""))))))
          else (true, none)

/-- The policy evaluator of `run` (scripts/preflight.ts lines 510-512):
worst-status-wins reduction of the check sequence. -/
def computeOverall (checks : List Check) : Overall :=
  if checks.any (fun check => decide (check.status = CheckStatus.fail)) then Overall.red
  else if checks.any (fun check => decide (check.status = CheckStatus.warn)) then Overall.yellow
  else Overall.green

/-- A posture snapshot as written to status.json (timestamp omitted: it is a
fresh wall-clock instant outside the logical state). -/
structure Status where
  overall : Overall
  lockfileSha256 : Option String
  checks : List Check
  deriving DecidableEq, Repr

/-- `run` (scripts/preflight.ts lines 393-527): the fixed ordered check
sequence and the worst-status-wins verdict, as a pure function of the
observed environment. -/
def run (env : Env) (hash : String → String) : Status :=
  let ls := shaStage env hash
  let pin := pinStage env
  let align := alignStage env pin.1 ls
  let checks : List Check :=
    [asCheck "root package-lock.json exists" env.hasRootLockfile none,
     asCheck "apps/web exists" env.hasWebDir none,
     asCheck "apps/web/package-lock.json does not exist" (!env.hasWebLockfile) none,
     ls.check,
     asCheck "apps/web/package.json pins xrpl to an exact version" pin.1.isSome pin.2,
     asCheck "root package-lock.json contains xrpl at the same version" align.1 align.2,
     runNpmAuditPolicyCheck env.audit]
  { overall := computeOverall checks,
    lockfileSha256 := ls.lockfileSha256,
    checks := checks }

/-! ## HTTP enforcement boundary (`POST` in apps/web/app/api/preflight/route.ts) -/

/-- Query parameters a caller may attach to the preflight request (the SDK
sets `mode`, and `simulate=version_mismatch` for fault injection). -/
structure PreflightRequest where
  mode : Option String
  simulate : Option String
  deriving DecidableEq, Repr

/-- Response of the preflight endpoint: HTTP status code plus the snapshot
body. -/
structure RouteResponse where
  statusCode : Nat
  body : Status
  deriving DecidableEq, Repr

/-- The response code choice of `POST` (route.ts line 54):
`status.overall === "green" ? 200 : 500`. -/
def routeStatusCode (overall : Overall) : Nat :=
  if overall = Overall.green then 200 else 500

/-- `POST` (route.ts lines 41-65) on the successful read path: the handler is
declared without a request parameter, so the incoming query string (mode,
simulate) is never inspected; the body is the status file verbatim. -/
def POST (_req : PreflightRequest) (statusFile : Status) : RouteResponse :=
  { statusCode := routeStatusCode statusFile.overall, body := statusFile }

/-- Success in the sense of `fetch`'s `response.ok`. -/
def isSuccessCode (code : Nat) : Bool :=
  decide (200 ≤ code) && decide (code < 300)

/-! ## SDK gate (packages/sdk/index.js) -/

/-- `normalizeMode` (packages/sdk/index.js lines 21-33); `none` models a
missing, undefined or non-string `mode` option. -/
def normalizeMode (mode : Option String) : Mode :=
  match mode with
  | some s =>
    let normalized := jsToLower (jsTrim s)
    if normalized = "enforced" ∨ normalized = "enforce" ∨ normalized = "eforce" then
      Mode.enforced
    else if normalized = "bypass" then Mode.bypass
    else Mode.enforced
  | none => Mode.enforced

/-- The SDK option bag, reduced to the field the mode computation reads. -/
structure SdkOptions where
  mode : Option String

/-- The effective mode computed by `preflightGuardrails` (index.js line 211). -/
def preflightGuardrailsMode (options : SdkOptions) : Mode :=
  normalizeMode options.mode

/-- The effective mode computed by `assertGuardrails` (index.js lines
221-222, via `preflightGuardrails`). -/
def assertGuardrailsMode (options : SdkOptions) : Mode :=
  preflightGuardrailsMode options

/-- The mode stored by the `GuardedXrplClient` constructor (index.js line
236). -/
def guardedClientMode (options : SdkOptions) : Mode :=
  normalizeMode options.mode

/-- A validated status payload as accepted by `isStatusPayload` (index.js
lines 52-65). -/
structure StatusPayload where
  overall : Overall
  checks : List Check
  deriving DecidableEq, Repr

/-- `firstFailingCheck` (index.js lines 67-69). -/
def firstFailingCheck (status : StatusPayload) : Option Check :=
  status.checks.find? (fun check => decide (check.status = CheckStatus.fail))

/-- `buildFailureReason` (index.js lines 71-80); a falsy (absent or empty)
details string yields the bare name. -/
def buildFailureReason (status : StatusPayload) (fallback : String) : String :=
  match firstFailingCheck status with
  | none => fallback
  | some failingCheck =>
    match failingCheck.details with
    | some d => if d = "" then failingCheck.name else failingCheck.name ++ (" (" ++ (d ++ ")"))
    | none => failingCheck.name

/-- The enforcement outcome assembled by the SDK. -/
structure Outcome where
  overall : Overall
  checks : List Check
  mode : Mode
  blocked : Bool
  reason : Option String
  source : String
  deriving DecidableEq, Repr

/-- The decision tail of `runHttpPreflight` (index.js lines 144-161), given a
payload that passed `isStatusPayload` and the HTTP response status. -/
def runHttpPreflight (mode : Mode) (payload : StatusPayload) (httpStatus : Nat) : Outcome :=
  let reason :=
    if payload.overall = Overall.red then
      some (buildFailureReason payload ("preflight returned " ++ toString httpStatus))
    else none
  { overall := payload.overall,
    checks := payload.checks,
    mode := mode,
    blocked := decide (mode = Mode.enforced) && decide (payload.overall = Overall.red),
    reason := reason,
    source := "http" }

/-! ## Concrete scenario inputs -/

/-- A stand-in for the sha256 digest function (its value is irrelevant to
every claim). -/
def demoHash : String → String := fun _ => "cafebabe"

/-- A root lockfile resolving xrpl 2.14.0 through the nested packages map. -/
def demoLockfileText : String :=
  "\x7b\"packages\":\x7b\"node_modules/xrpl\":\x7b\"version\":\"2.14.0\"\x7d\x7d\x7d"

/-- A web manifest pinning xrpl to the exact version 2.14.0. -/
def demoManifestText : String :=
  "\x7b\"dependencies\":\x7b\"xrpl\":\"2.14.0\"\x7d\x7d"

/-- A clean audit run: exit 0 and zero vulnerabilities of every severity. -/
def demoCleanAudit : AuditOutput :=
  { exitCode := some 0,
    stdout := "\x7b\"metadata\":\x7b\"vulnerabilities\":\x7b\"critical\":0,\"high\":0,\"moderate\":0,\"low\":0\x7d\x7d\x7d",
    stderr := "",
    spawnError := none }

/-- A fully healthy environment: aligned lockfile, exact pin, clean audit. -/
def demoEnv : Env :=
  { hasRootLockfile := true,
    hasWebDir := true,
    hasWebLockfile := false,
    rootLockfileRead := Except.ok demoLockfileText,
    hasWebPackageJson := true,
    webPackageJsonRead := Except.ok demoManifestText,
    audit := demoCleanAudit }

/-- The healthy environment with the manifest pin replaced by the range
`"^2.14.0"`. -/
def demoCaretEnv : Env :=
  { demoEnv with
    webPackageJsonRead := Except.ok "\x7b\"dependencies\":\x7b\"xrpl\":\"^2.14.0\"\x7d\x7d" }

/-- A red payload whose first failing check carries details. -/
def c1Payload : StatusPayload :=
  { overall := Overall.red,
    checks :=
      [⟨"apps/web exists", CheckStatus.pass, none⟩,
       ⟨"apps/web/package.json pins xrpl to an exact version", CheckStatus.fail,
        some "dependencies.xrpl must be an exact version (no ^ or ~); found \"^2.14.0\""⟩,
       ⟨"npm audit policy", CheckStatus.fail, none⟩] }

/-- A yellow snapshot (one warn check, nothing failing). -/
def demoYellowStatus : Status :=
  { overall := Overall.yellow,
    lockfileSha256 := some "cafebabe",
    checks :=
      [⟨"npm audit policy", CheckStatus.warn,
        some "critical=0, high=0, moderate=1, low=0; packages=minimatch"⟩] }

/-- Modelled from the spec: the claimed recovery order for audit JSON —
first a strict parse of standard output, only then a strict parse of
standard error, and only if both fail a best-effort substring extraction
between the first open brace and the last close brace (tried on stdout, then
stderr). This definition follows the spec's words, for comparison with
`auditParseOutcome`, which is translated from the source. -/
def claimedRecoveryOrder (stdout stderr : String) : Option Json :=
  let strict := fun (t : String) =>
    match jparse (jsTrim t) with
    | Except.ok v => jsOpt v
    | Except.error _ => none
  let sub := fun (t : String) =>
    match braceSlice (jsTrim t) with
    | some sl =>
      (match jparse sl with
       | Except.ok v => jsOpt v
       | Except.error _ => none)
    | none => none
  strict stdout <|> (strict stderr <|> (sub stdout <|> sub stderr))

/-- Standard output with junk before a JSON object: its strict parse fails
but its brace-substring extraction succeeds. -/
def c9Stdout : String := "x \x7b\"a\":1\x7d"

/-- Standard error that is itself valid JSON. -/
def c9Stderr : String := "\x7b\"b\":2\x7d"

/-! ## Helper lemmas -/

/-- Characterization of the stdout/stderr combination: a parsed stdout
candidate short-circuits stderr entirely; otherwise the parsed value comes
from the stderr candidate. -/
theorem auditParseOutcome_eq (stdout stderr : String) :
    auditParseOutcome stdout stderr =
      (match (parseJsonCandidate (some stdout)).1 with
       | some j => (some j, (parseJsonCandidate (some stdout)).2)
       | none => ((parseJsonCandidate (some stderr)).1,
           (parseJsonCandidate (some stdout)).2 <|> (parseJsonCandidate (some stderr)).2)) := by
  unfold auditParseOutcome
  cases hs : (parseJsonCandidate (some stdout)).1 <;> simp [hs]

/-- A string with a non-empty left part is non-empty. -/
theorem append_ne_empty_left (a b : String) (h : a.data ≠ []) : a ++ b ≠ "" := by
  intro he
  apply h
  have hd : (a ++ b).data = ([] : List Char) := by rw [he]
  rw [String.data_append] at hd
  exact (List.append_eq_nil.mp hd).1

/-- The audit check always carries the name "npm audit policy". -/
theorem runNpmAuditPolicyCheck_name (out : AuditOutput) :
    (runNpmAuditPolicyCheck out).name = "npm audit policy" := by
  unfold runNpmAuditPolicyCheck
  split
  · rfl
  · split <;> rfl

/-- The audit check always carries a details string produced by
`formatAuditDetails`. -/
theorem runNpmAuditPolicyCheck_details (out : AuditOutput) :
    ∃ counts pkgs note, (runNpmAuditPolicyCheck out).details =
      some (formatAuditDetails counts pkgs note) := by
  unfold runNpmAuditPolicyCheck
  split
  · exact ⟨_, _, _, rfl⟩
  · split
    · exact ⟨_, _, _, rfl⟩
    · exact ⟨_, _, _, rfl⟩

/-- The sha/digest check always carries its fixed name. -/
theorem shaStage_check_name (env : Env) (hash : String → String) :
    (shaStage env hash).check.name = "sha256 of root package-lock.json computed" := by
  unfold shaStage
  split
  · split
    · split <;> rfl
    · rfl
  · rfl

/-! ## Claim theorems -/

/-- C10: mode normalization fails closed. For every options object reaching
`preflightGuardrails`, `assertGuardrails`, or the `GuardedXrplClient`
constructor, the effective mode is bypass only when the supplied mode string,
trimmed and lower-cased, equals "bypass"; every other value — a missing or
non-string mode, any unrecognized string, and the variants "enforce" and
"eforce" — yields enforced. -/
theorem c10_normalizeMode_fails_closed (v : Option String) :
    (normalizeMode v = Mode.bypass ↔ ∃ s, v = some s ∧ jsToLower (jsTrim s) = "bypass") ∧
    (normalizeMode v = Mode.bypass ∨ normalizeMode v = Mode.enforced) ∧
    normalizeMode none = Mode.enforced ∧
    normalizeMode (some "enforce") = Mode.enforced ∧
    normalizeMode (some "eforce") = Mode.enforced ∧
    normalizeMode (some " Bypass ") = Mode.bypass ∧
    (∀ o : SdkOptions, preflightGuardrailsMode o = normalizeMode o.mode ∧
      assertGuardrailsMode o = normalizeMode o.mode ∧
      guardedClientMode o = normalizeMode o.mode) := by
  refine ⟨?_, ?_, rfl, rfl, rfl, rfl, fun o => ⟨rfl, rfl, rfl⟩⟩
  · constructor
    · intro h
      match v with
      | none => exact absurd h (by simp [normalizeMode])
      | some s =>
        refine ⟨s, rfl, ?_⟩
        simp only [normalizeMode] at h
        split at h
        · exact absurd h (by simp)
        · split at h
          · assumption
          · exact absurd h (by simp)
    · rintro ⟨s, rfl, hs⟩
      simp [normalizeMode, hs]
  · cases h : normalizeMode v
    · exact Or.inr rfl
    · exact Or.inl rfl

/-- C1: enforcement outcome invariant. For every posture payload and every
mode, the HTTP preflight outcome has `blocked = true` iff the mode is
enforced and the snapshot is red (so bypass never blocks, red included);
`reason` is non-null iff the snapshot is red, in which case it is the first
failing check's name with its details appended in parentheses when present,
and otherwise the transport fallback description. -/
theorem c1_enforcement_outcome (mode : Mode) (payload : StatusPayload) (httpStatus : Nat) :
    ((runHttpPreflight mode payload httpStatus).blocked = true ↔
      (mode = Mode.enforced ∧ payload.overall = Overall.red)) ∧
    (mode = Mode.bypass → (runHttpPreflight mode payload httpStatus).blocked = false) ∧
    ((runHttpPreflight mode payload httpStatus).reason ≠ none ↔
      payload.overall = Overall.red) ∧
    (payload.overall = Overall.red →
      (runHttpPreflight mode payload httpStatus).reason =
        some (buildFailureReason payload ("preflight returned " ++ toString httpStatus))) ∧
    (∀ fb c d, firstFailingCheck payload = some c → c.details = some d → d ≠ "" →
      buildFailureReason payload fb = c.name ++ (" (" ++ (d ++ ")"))) ∧
    (∀ fb c, firstFailingCheck payload = some c → c.details = none →
      buildFailureReason payload fb = c.name) ∧
    (∀ fb, firstFailingCheck payload = none → buildFailureReason payload fb = fb) := by
  refine ⟨?_, ?_, ?_, ?_, ?_, ?_, ?_⟩
  · simp [runHttpPreflight]
  · intro hb
    subst hb
    simp [runHttpPreflight]
  · by_cases hr : payload.overall = Overall.red <;> simp [runHttpPreflight, hr]
  · intro hr
    simp [runHttpPreflight, hr]
  · intro fb c d hc hd hne
    simp [buildFailureReason, hc, hd, hne]
  · intro fb c hc hd
    simp [buildFailureReason, hc, hd]
  · intro fb hc
    simp [buildFailureReason, hc]

/-- Witness for C1 at a concrete red payload. -/
theorem c1_enforcement_outcome_witness :
    (runHttpPreflight Mode.enforced c1Payload 500).blocked = true ∧
    (runHttpPreflight Mode.bypass c1Payload 500).blocked = false ∧
    (runHttpPreflight Mode.bypass c1Payload 500).reason =
      some ("apps/web/package.json pins xrpl to an exact version" ++
        (" (" ++ ("dependencies.xrpl must be an exact version (no ^ or ~); found \"^2.14.0\"" ++ ")"))) := by
  have h1 := c1_enforcement_outcome Mode.enforced c1Payload 500
  have h2 := c1_enforcement_outcome Mode.bypass c1Payload 500
  refine ⟨h1.1.mpr ⟨rfl, rfl⟩, h2.2.1 rfl, ?_⟩
  rw [h2.2.2.2.1 rfl,
    h2.2.2.2.2.1 ("preflight returned " ++ toString 500)
      ⟨"apps/web/package.json pins xrpl to an exact version", CheckStatus.fail,
        some "dependencies.xrpl must be an exact version (no ^ or ~); found \"^2.14.0\""⟩
      "dependencies.xrpl must be an exact version (no ^ or ~); found \"^2.14.0\"" rfl rfl
      (by decide)]

/-- C2: posture aggregation is worst-status-wins. `overall = red` iff some
check fails; else yellow iff some check warns; else green — and the verdict
is invariant under permutation of the check sequence. -/
theorem c2_worst_status_wins (checks checks' : List Check) :
    (computeOverall checks = Overall.red ↔
      ∃ c ∈ checks, c.status = CheckStatus.fail) ∧
    (computeOverall checks = Overall.yellow ↔
      ((¬ ∃ c ∈ checks, c.status = CheckStatus.fail) ∧
        ∃ c ∈ checks, c.status = CheckStatus.warn)) ∧
    (computeOverall checks = Overall.green ↔
      ((¬ ∃ c ∈ checks, c.status = CheckStatus.fail) ∧
        ¬ ∃ c ∈ checks, c.status = CheckStatus.warn)) ∧
    (checks.Perm checks' → computeOverall checks = computeOverall checks') := by
  have hany : ∀ (l : List Check) (st : CheckStatus),
      l.any (fun c => decide (c.status = st)) = true ↔ ∃ c ∈ l, c.status = st := by
    intro l st
    simp
  refine ⟨?_, ?_, ?_, ?_⟩
  · by_cases hf : ∃ c ∈ checks, c.status = CheckStatus.fail
    · simp [computeOverall, (hany checks CheckStatus.fail).mpr hf, hf]
    · have hf' : checks.any (fun c => decide (c.status = CheckStatus.fail)) = false := by
        simpa using hf
      by_cases hw : ∃ c ∈ checks, c.status = CheckStatus.warn
      · simp [computeOverall, hf', (hany checks CheckStatus.warn).mpr hw, hf]
      · have hw' : checks.any (fun c => decide (c.status = CheckStatus.warn)) = false := by
          simpa using hw
        simp [computeOverall, hf', hw', hf]
  · by_cases hf : ∃ c ∈ checks, c.status = CheckStatus.fail
    · simp [computeOverall, (hany checks CheckStatus.fail).mpr hf, hf]
    · have hf' : checks.any (fun c => decide (c.status = CheckStatus.fail)) = false := by
        simpa using hf
      by_cases hw : ∃ c ∈ checks, c.status = CheckStatus.warn
      · simp [computeOverall, hf', (hany checks CheckStatus.warn).mpr hw, hf, hw]
      · have hw' : checks.any (fun c => decide (c.status = CheckStatus.warn)) = false := by
          simpa using hw
        simp [computeOverall, hf', hw', hw]
  · by_cases hf : ∃ c ∈ checks, c.status = CheckStatus.fail
    · simp [computeOverall, (hany checks CheckStatus.fail).mpr hf, hf]
    · have hf' : checks.any (fun c => decide (c.status = CheckStatus.fail)) = false := by
        simpa using hf
      by_cases hw : ∃ c ∈ checks, c.status = CheckStatus.warn
      · simp [computeOverall, hf', (hany checks CheckStatus.warn).mpr hw, hf, hw]
      · have hw' : checks.any (fun c => decide (c.status = CheckStatus.warn)) = false := by
          simpa using hw
        simp [computeOverall, hf', hw', hf, hw]
  · intro hp
    have hall : ∀ p : Check → Bool, checks.any p = checks'.any p := by
      intro p
      cases h1 : checks.any p <;> cases h2 : checks'.any p <;> try rfl
      · obtain ⟨x, hx, hpx⟩ := List.any_eq_true.mp h2
        have h3 : checks.any p = true :=
          List.any_eq_true.mpr ⟨x, hp.mem_iff.mpr hx, hpx⟩
        rw [h1] at h3
        exact Bool.noConfusion h3
      · obtain ⟨x, hx, hpx⟩ := List.any_eq_true.mp h1
        have h3 : checks'.any p = true :=
          List.any_eq_true.mpr ⟨x, hp.mem_iff.mp hx, hpx⟩
        rw [h2] at h3
        exact Bool.noConfusion h3
    unfold computeOverall
    rw [hall, hall]

/-- Witness for C2: a warn/pass pair aggregates to yellow in either order. -/
theorem c2_worst_status_wins_witness :
    computeOverall
        [⟨"npm audit policy", CheckStatus.warn, none⟩,
         ⟨"apps/web exists", CheckStatus.pass, none⟩] =
      computeOverall
        [⟨"apps/web exists", CheckStatus.pass, none⟩,
         ⟨"npm audit policy", CheckStatus.warn, none⟩] ∧
    computeOverall
        [⟨"npm audit policy", CheckStatus.warn, none⟩,
         ⟨"apps/web exists", CheckStatus.pass, none⟩] = Overall.yellow := by
  have h := c2_worst_status_wins
    [⟨"npm audit policy", CheckStatus.warn, none⟩,
     ⟨"apps/web exists", CheckStatus.pass, none⟩]
    [⟨"apps/web exists", CheckStatus.pass, none⟩,
     ⟨"npm audit policy", CheckStatus.warn, none⟩]
  refine ⟨h.2.2.2 (List.Perm.swap _ _ _), h.2.1.mpr ⟨by decide, ?_⟩⟩
  exact ⟨⟨"npm audit policy", CheckStatus.warn, none⟩, by simp, rfl⟩

/-- C3: audit status mapping. Given the extracted severity counts, exit code
and optional tool-reported error message, the status is fail if critical or
high is positive; else warn if moderate or low is positive; else pass; a
tool-reported error message always forces fail; and an otherwise-pass result
is downgraded to fail whenever the subprocess exited with a non-zero code
(exit code 1 with all counts zero included). -/
theorem c3_audit_status_mapping (counts : SeverityCounts) (exitCode : Option Int)
    (errMsg : Option String) :
    (optTruthy errMsg = true →
      auditPolicyStatus counts exitCode errMsg = CheckStatus.fail) ∧
    (counts.critical > 0 ∨ counts.high > 0 →
      auditPolicyStatus counts exitCode errMsg = CheckStatus.fail) ∧
    (optTruthy errMsg = false → ¬(counts.critical > 0 ∨ counts.high > 0) →
      (counts.moderate > 0 ∨ counts.low > 0) →
      auditPolicyStatus counts exitCode errMsg = CheckStatus.warn) ∧
    (optTruthy errMsg = false → ¬(counts.critical > 0 ∨ counts.high > 0) →
      ¬(counts.moderate > 0 ∨ counts.low > 0) → (exitCode = none ∨ exitCode = some 0) →
      auditPolicyStatus counts exitCode errMsg = CheckStatus.pass) ∧
    (optTruthy errMsg = false → ¬(counts.critical > 0 ∨ counts.high > 0) →
      ¬(counts.moderate > 0 ∨ counts.low > 0) → ∀ k : Int, k ≠ 0 → exitCode = some k →
      auditPolicyStatus counts exitCode errMsg = CheckStatus.fail) := by
  refine ⟨?_, ?_, ?_, ?_, ?_⟩
  · intro he
    simp [auditPolicyStatus, he]
  · intro hc
    by_cases he : optTruthy errMsg = true <;> simp [auditPolicyStatus, he, hc]
  · intro he hch hml
    simp [auditPolicyStatus, he, hch, hml]
  · intro he hch hml hec
    rcases hec with hec | hec <;> subst hec <;> simp [auditPolicyStatus, he, hch, hml]
  · intro he hch hml k hk hec
    subst hec
    simp [auditPolicyStatus, he, hch, hml, hk]

/-- Witness for C3: a clean report with exit code 1 is downgraded to fail,
and a moderate-only report with exit code 0 is warn. -/
theorem c3_audit_status_mapping_witness :
    auditPolicyStatus createSeverityCounts (some 1) none = CheckStatus.fail ∧
    auditPolicyStatus { critical := 0, high := 0, moderate := 1, low := 0 }
      (some 0) none = CheckStatus.warn ∧
    auditPolicyStatus { critical := 0, high := 2, moderate := 0, low := 0 }
      (some 0) none = CheckStatus.fail := by
  refine ⟨?_, ?_, ?_⟩
  · exact (c3_audit_status_mapping createSeverityCounts (some 1) none).2.2.2.2
      rfl (by decide) (by decide) 1 (by decide) rfl
  · exact (c3_audit_status_mapping _ (some 0) none).2.2.1 rfl (by decide) (by decide)
  · exact (c3_audit_status_mapping _ (some 0) none).2.1 (by decide)

/-- C4 counterexample: for a yellow snapshot in enforced mode the endpoint
answers 500 (non-success) although the gate would not block, refuting
"non-success exactly when mode is enforced and overall is red". -/
theorem c4_counterexample :
    ¬ ((isSuccessCode (POST { mode := some "enforced", simulate := none }
          demoYellowStatus).statusCode = false) ↔
        (Mode.enforced = Mode.enforced ∧ demoYellowStatus.overall = Overall.red)) := by
  decide

/-- C4 amended: the endpoint's status code is a function of the snapshot
alone — 200 iff overall is green, 500 otherwise — independent of any mode or
query parameter, while the body always carries the snapshot verbatim. -/
theorem c4_amended_route_status (req req' : PreflightRequest) (st : Status) :
    ((POST req st).statusCode = 200 ↔ st.overall = Overall.green) ∧
    ((POST req st).statusCode = 500 ↔ st.overall ≠ Overall.green) ∧
    (isSuccessCode (POST req st).statusCode = true ↔ st.overall = Overall.green) ∧
    (POST req st).body = st ∧
    POST req st = POST req' st := by
  by_cases h : st.overall = Overall.green <;>
    simp [POST, routeStatusCode, isSuccessCode, h]

/-- C5: the preflight handler is declared without a request parameter, so a
`simulate=version_mismatch` directive cannot reach it. At the spec's own
scenario (manifest pin "2.14.0", aligned lockfile) the returned snapshot is
unchanged: the lockfile-alignment check still passes with no synthesized
"simulated mismatch" detail, contradicting the documented fault injection. -/
theorem c5_simulate_ignored :
    POST { mode := some "enforced", simulate := some "version_mismatch" }
        (run demoEnv demoHash) =
      POST { mode := none, simulate := none } (run demoEnv demoHash) ∧
    (POST { mode := some "enforced", simulate := some "version_mismatch" }
        (run demoEnv demoHash)).body = run demoEnv demoHash ∧
    (run demoEnv demoHash).checks[5]? =
      some ⟨"root package-lock.json contains xrpl at the same version",
        CheckStatus.pass, none⟩ ∧
    (run demoEnv demoHash).overall = Overall.green :=
  ⟨rfl, rfl, rfl, rfl⟩

/-- C6: the audit result handling is total. For every captured subprocess
result — spawn error, any exit code, and arbitrary stdout/stderr contents
(empty, truncated, unknown or known JSON shape) — it yields a well-formed
Check named "npm audit policy" with a status among pass/warn/fail and a
details string in the deterministic "critical=..." format, rather than an
exception (every fallible step is modelled and handled internally, so the
function's type is already exception-free). -/
theorem c6_audit_parser_total (out : AuditOutput) :
    (runNpmAuditPolicyCheck out).name = "npm audit policy" ∧
    ((runNpmAuditPolicyCheck out).status = CheckStatus.pass ∨
      (runNpmAuditPolicyCheck out).status = CheckStatus.warn ∨
      (runNpmAuditPolicyCheck out).status = CheckStatus.fail) ∧
    (∃ r, (runNpmAuditPolicyCheck out).details = some ("critical=" ++ r)) := by
  refine ⟨runNpmAuditPolicyCheck_name out, ?_, ?_⟩
  · cases h : (runNpmAuditPolicyCheck out).status
    · exact Or.inl rfl
    · exact Or.inr (Or.inl rfl)
    · exact Or.inr (Or.inr rfl)
  · obtain ⟨c, p, n, hd⟩ := runNpmAuditPolicyCheck_details out
    rw [hd]
    exact ⟨_, rfl⟩

/-- C7 counterexample: at the healthy environment the check-name sequence is
not the claimed five structural names followed by the audit check — the code
also inserts "apps/web exists" in second position. -/
theorem c7_counterexample :
    (run demoEnv demoHash).checks.map (fun c => c.name) ≠
      ["root package-lock.json exists",
       "apps/web/package-lock.json does not exist",
       "sha256 of root package-lock.json computed",
       "apps/web/package.json pins xrpl to an exact version",
       "root package-lock.json contains xrpl at the same version",
       "npm audit policy"] := by
  intro h
  have h7 : (run demoEnv demoHash).checks.map (fun c => c.name) =
      ["root package-lock.json exists",
       "apps/web exists",
       "apps/web/package-lock.json does not exist",
       "sha256 of root package-lock.json computed",
       "apps/web/package.json pins xrpl to an exact version",
       "root package-lock.json contains xrpl at the same version",
       "npm audit policy"] := rfl
  rw [h7] at h
  exact absurd h (by decide)

/-- C7 amended: for every environment the runner appends exactly six
structural checks, in order — lockfile existence, web-app directory
existence, secondary lockfile absence, lockfile content digest, manifest pin
validation, lockfile/manifest alignment — followed by the audit check and
nothing else. -/
theorem c7_amended_check_sequence (env : Env) (hash : String → String) :
    (run env hash).checks.map (fun c => c.name) =
      ["root package-lock.json exists",
       "apps/web exists",
       "apps/web/package-lock.json does not exist",
       "sha256 of root package-lock.json computed",
       "apps/web/package.json pins xrpl to an exact version",
       "root package-lock.json contains xrpl at the same version",
       "npm audit policy"] := by
  simp [run, asCheck, shaStage_check_name, runNpmAuditPolicyCheck_name]

/-- C8: manifest pin validation. When the web manifest parses to an object
whose `dependencies.xrpl` field is the string `v`, the pin check passes iff
`v` matches the strict exact-semver pattern; when it does not match, the pin
check fails with details naming the offending string and the alignment check
reports that it cannot compare instead of comparing versions. -/
theorem c8_manifest_pin (env : Env) (hash : String → String) (text : String)
    (j deps : Json) (v : String)
    (h1 : env.hasWebPackageJson = true)
    (h2 : env.webPackageJsonRead = Except.ok text)
    (h3 : jparse text = Except.ok j)
    (h4 : jsField j "dependencies" = some deps)
    (h5 : jsField deps "xrpl" = some (Json.str v)) :
    ((run env hash).checks[4]? =
        some ⟨"apps/web/package.json pins xrpl to an exact version",
          CheckStatus.pass, none⟩ ↔
      isExactVersionString v = true) ∧
    (isExactVersionString v = false →
      (run env hash).checks[4]? =
        some ⟨"apps/web/package.json pins xrpl to an exact version", CheckStatus.fail,
          some ("dependencies.xrpl must be an exact version (no ^ or ~); found \"" ++
            (v ++ "\""))⟩ ∧
      (run env hash).checks[5]? =
        some ⟨"root package-lock.json contains xrpl at the same version", CheckStatus.fail,
          some "apps/web/package.json xrpl version check failed, cannot compare lockfile"⟩) := by
  obtain ⟨jf, rfl⟩ : ∃ jf, j = Json.obj jf := by
    cases j
    case obj f => exact ⟨f, rfl⟩
    all_goals (exfalso; simp [jsField] at h4)
  obtain ⟨df, rfl⟩ : ∃ df, deps = Json.obj df := by
    cases deps
    case obj f => exact ⟨f, rfl⟩
    all_goals (exfalso; simp [jsField] at h5)
  have hpin : pinStage env =
      (if isExactVersionString v = false then
        (none, some ("dependencies.xrpl must be an exact version (no ^ or ~); found \"" ++
          (v ++ "\"")))
      else (some v, none)) := by
    simp [pinStage, h1, h2, h3, h4, h5, isRecord, isRecordO]
  have hc4 : (run env hash).checks[4]? =
      some (asCheck "apps/web/package.json pins xrpl to an exact version"
        (pinStage env).1.isSome (pinStage env).2) := rfl
  have hc5 : (run env hash).checks[5]? =
      some (asCheck "root package-lock.json contains xrpl at the same version"
        (alignStage env (pinStage env).1 (shaStage env hash)).1
        (alignStage env (pinStage env).1 (shaStage env hash)).2) := rfl
  have hmsg : ("dependencies.xrpl must be an exact version (no ^ or ~); found \"" ++
      (v ++ "\"")) ≠ "" :=
    append_ne_empty_left _ _ (by decide)
  refine ⟨⟨?_, ?_⟩, ?_⟩
  · intro hpass
    by_contra hex
    have hexf : isExactVersionString v = false := by
      cases hval : isExactVersionString v
      · rfl
      · exact absurd hval hex
    rw [hc4, hpin, if_pos hexf] at hpass
    simp [asCheck, hmsg] at hpass
  · intro hex
    rw [hc4, hpin, if_neg (by rw [hex]; decide)]
    simp [asCheck]
  · intro hexf
    constructor
    · rw [hc4, hpin, if_pos hexf]
      simp [asCheck, hmsg]
    · rw [hc5, hpin, if_pos hexf]
      simp [alignStage, asCheck]

/-- Witness for C8 at the caret-pinned environment (`"^2.14.0"`). -/
theorem c8_manifest_pin_witness :
    isExactVersionString "^2.14.0" = false ∧
    (run demoCaretEnv demoHash).checks[4]? =
      some ⟨"apps/web/package.json pins xrpl to an exact version", CheckStatus.fail,
        some ("dependencies.xrpl must be an exact version (no ^ or ~); found \"" ++
          ("^2.14.0" ++ "\""))⟩ ∧
    (run demoCaretEnv demoHash).checks[5]? =
      some ⟨"root package-lock.json contains xrpl at the same version", CheckStatus.fail,
        some "apps/web/package.json xrpl version check failed, cannot compare lockfile"⟩ := by
  have h := c8_manifest_pin demoCaretEnv demoHash
    "\x7b\"dependencies\":\x7b\"xrpl\":\"^2.14.0\"\x7d\x7d"
    (Json.obj [("dependencies", Json.obj [("xrpl", Json.str "^2.14.0")])])
    (Json.obj [("xrpl", Json.str "^2.14.0")]) "^2.14.0"
    rfl rfl rfl rfl rfl
  exact ⟨rfl, h.2 rfl⟩

/-- C9 counterexample: with stdout `x ("a": 1 object)` and stderr a valid
`("b": 2)` object, the code recovers the stdout substring object, whereas the
claimed order (stderr before any substring extraction) would recover the
stderr object — so the claimed recovery order does not hold of the code. -/
theorem c9_counterexample :
    (auditParseOutcome c9Stdout c9Stderr).1 ≠ claimedRecoveryOrder c9Stdout c9Stderr := by
  intro h
  have hL : ((auditParseOutcome c9Stdout c9Stderr).1.bind (fun j => jsField j "a")) =
      some (Json.num 1) := rfl
  have hR : ((claimedRecoveryOrder c9Stdout c9Stderr).bind (fun j => jsField j "a")) =
      none := rfl
  rw [h] at hL
  rw [hL] at hR
  exact Option.noConfusion hR

/-- C9 amended: recovery is candidate-at-a-time. The stdout candidate is
attempted first, where a strict parse failure is followed immediately by a
brace-substring extraction of stdout itself; standard error (with the same
two-step attempt) is consulted only when the whole stdout candidate yields
no JSON; the parser gives up only when both candidates fail both attempts. -/
theorem c9_amended_recovery_order (stdout stderr stderr' : String) :
    ((parseJsonCandidate (some stdout)).1 ≠ none →
      auditParseOutcome stdout stderr = parseJsonCandidate (some stdout) ∧
      auditParseOutcome stdout stderr = auditParseOutcome stdout stderr') ∧
    ((parseJsonCandidate (some stdout)).1 = none →
      (auditParseOutcome stdout stderr).1 = (parseJsonCandidate (some stderr)).1) ∧
    (∀ t e, jsTrim t ≠ "" → jparse (jsTrim t) = Except.error e →
      (parseJsonCandidate (some t)).1 =
        (match braceSlice (jsTrim t) with
         | some sl =>
           (match jparse sl with
            | Except.ok w => jsOpt w
            | Except.error _ => none)
         | none => none)) := by
  refine ⟨?_, ?_, ?_⟩
  · intro hne
    cases hs : (parseJsonCandidate (some stdout)).1 with
    | none => exact absurd hs hne
    | some j =>
      constructor
      · rw [auditParseOutcome_eq stdout stderr, hs]
        exact Prod.ext hs.symm rfl
      · rw [auditParseOutcome_eq stdout stderr, auditParseOutcome_eq stdout stderr', hs]
  · intro hz
    rw [auditParseOutcome_eq stdout stderr, hz]
  · intro t e ht he
    simp only [parseJsonCandidate]
    rw [if_neg ht, he]
    cases hb : braceSlice (jsTrim t) with
    | none => rfl
    | some sl => cases hj : jparse sl <;> simp [hj]

/-- Witness for C9 amended at the concrete streams: the stdout candidate
(recovered through its own substring) short-circuits stderr. -/
theorem c9_amended_recovery_order_witness :
    auditParseOutcome c9Stdout c9Stderr = parseJsonCandidate (some c9Stdout) ∧
    auditParseOutcome c9Stdout "" = auditParseOutcome c9Stdout c9Stderr ∧
    (parseJsonCandidate (some c9Stdout)).1 =
      (match braceSlice (jsTrim c9Stdout) with
       | some sl =>
         (match jparse sl with
          | Except.ok w => jsOpt w
          | Except.error _ => none)
       | none => none) ∧
    (parseJsonCandidate (some c9Stdout)).1 = some (Json.obj [("a", Json.num 1)]) := by
  have hv : (parseJsonCandidate (some c9Stdout)).1 = some (Json.obj [("a", Json.num 1)]) := rfl
  have hne : (parseJsonCandidate (some c9Stdout)).1 ≠ none := by
    rw [hv]
    exact fun h => Option.noConfusion h
  have h1 := c9_amended_recovery_order c9Stdout c9Stderr ""
  have h2 := c9_amended_recovery_order c9Stdout "" c9Stderr
  exact ⟨(h1.1 hne).1, ((h2.1 hne).2).symm ▸ rfl, by
    exact h1.2.2 c9Stdout "Unexpected token in JSON" (by decide) rfl, hv⟩

end Guardrails
